import Mathlib

/-!
Shallow embedding of src/production-server.js (NasaServer).

The server maintains a single mutable record of model/usage statistics
(`modelStats`), persists it to a JSON file (`loadStats` / `saveStats`),
and exposes four HTTP endpoints that mutate it:

  - GET  /tap/sync     : TAP proxy, counts an api call, 400 on missing query
  - POST /predict      : rule-based habitability scoring + stats recording
  - POST /ai/predict   : forwards to an external model + stats recording
  - GET  /api/stats    : counts an api call and returns the live record

JavaScript numbers are modelled as rationals (the scoring weights and all
comparisons in the claims are exact at the modelled values), timestamps and
dates as opaque strings supplied by the environment, and the JSON request
bodies / upstream responses as explicit parameters of each handler.
-/

/-- Upstream response of the external prediction API as consumed by the
/ai/predict handler: the `confidence` field may be absent (`undefined` in
JS); the rest of the JSON payload is opaque to the server. -/
structure AiResponse where
  confidence : Option ℚ
  payload : String
  deriving DecidableEq

/-- One element of `prediction_history`.  The /predict handler pushes an
object with fields features/prediction/confidence/timestamp/reasoning;
the /ai/predict handler unshifts an object with fields
timestamp/input/output/confidence. -/
inductive HistoryEntry where
  | predictE (features : List ℚ) (prediction : String) (confidence : ℚ)
      (timestamp : String) (reasoning : String)
  | aiE (timestamp : String) (input : String) (output : AiResponse)
      (confidence : ℚ)
  deriving DecidableEq

/-- The `modelStats` record (§3 StatsRecord). -/
structure StatsRecord where
  model_type : String
  training_samples : Nat
  features_count : Nat
  last_updated : String
  total_predictions : Nat
  confirmed_predictions : Nat
  rejected_predictions : Nat
  total_confidence : ℚ
  prediction_history : List HistoryEntry
  start_time : String
  api_calls_today : Nat
  last_reset : String
  deriving DecidableEq

/-- The default `modelStats` value built at process start (lines 12-25).
The three date/time strings come from the clock and are passed in. -/
def defaultStats (lastUpdated startTime lastReset : String) : StatsRecord :=
  { model_type := "Random Forest Classifier"
    training_samples := 9564
    features_count := 4
    last_updated := lastUpdated
    total_predictions := 0
    confirmed_predictions := 0
    rejected_predictions := 0
    total_confidence := 0
    prediction_history := []
    start_time := startTime
    api_calls_today := 0
    last_reset := lastReset }

/-- The persisted JSON document: a shallow record in which any field can be
absent (the shallow merge at load time fills absent fields from defaults). -/
structure SavedStats where
  model_type : Option String
  training_samples : Option Nat
  features_count : Option Nat
  last_updated : Option String
  total_predictions : Option Nat
  confirmed_predictions : Option Nat
  rejected_predictions : Option Nat
  total_confidence : Option ℚ
  prediction_history : Option (List HistoryEntry)
  start_time : Option String
  api_calls_today : Option Nat
  last_reset : Option String
  deriving DecidableEq

/-- `JSON.stringify(modelStats)` followed by `fs.writeFile` (lines 45-51):
the file receives every field of the record. -/
def saveStats (s : StatsRecord) : SavedStats :=
  { model_type := some s.model_type
    training_samples := some s.training_samples
    features_count := some s.features_count
    last_updated := some s.last_updated
    total_predictions := some s.total_predictions
    confirmed_predictions := some s.confirmed_predictions
    rejected_predictions := some s.rejected_predictions
    total_confidence := some s.total_confidence
    prediction_history := some s.prediction_history
    start_time := some s.start_time
    api_calls_today := some s.api_calls_today
    last_reset := some s.last_reset }

/-- The spread `{ ...modelStats, ...saved }` (line 38): fields present in
the saved document override the defaults, absent fields keep the default. -/
def mergeStats (d : StatsRecord) (p : SavedStats) : StatsRecord :=
  { model_type := p.model_type.getD d.model_type
    training_samples := p.training_samples.getD d.training_samples
    features_count := p.features_count.getD d.features_count
    last_updated := p.last_updated.getD d.last_updated
    total_predictions := p.total_predictions.getD d.total_predictions
    confirmed_predictions := p.confirmed_predictions.getD d.confirmed_predictions
    rejected_predictions := p.rejected_predictions.getD d.rejected_predictions
    total_confidence := p.total_confidence.getD d.total_confidence
    prediction_history := p.prediction_history.getD d.prediction_history
    start_time := p.start_time.getD d.start_time
    api_calls_today := p.api_calls_today.getD d.api_calls_today
    last_reset := p.last_reset.getD d.last_reset }

/-- `loadStats` (lines 30-43).  `d` is the in-memory record before loading
(the defaults), `today` is `new Date().toDateString()`, and `file` is the
parsed persisted document, `none` when the file is absent or unparsable
(the catch branch keeps the defaults).  If the persisted `last_reset`
differs from today, `api_calls_today` is zeroed and `last_reset` set to
today before the shallow merge. -/
def loadStats (d : StatsRecord) (today : String) (file : Option SavedStats) :
    StatsRecord :=
  match file with
  | none => d
  | some saved0 =>
      let saved :=
        if saved0.last_reset ≠ some today then
          { saved0 with api_calls_today := some 0, last_reset := some today }
        else saved0
      mergeStats d saved

/-- Line 113: the ternary on confidence at threshold 0.5, CONFIRMED when
confidence is at least 0.5, FALSE POSITIVE otherwise. -/
def predictVerdict (c : ℚ) : String :=
  if c ≥ 0.5 then "CONFIRMED" else "FALSE POSITIVE"

/-- `Math.min(a, b)` on numbers. -/
def jsMin (a b : ℚ) : ℚ := if a ≤ b then a else b

/-- `Math.round(x * 100) / 100` as used for the reported confidence
(lines 121 and 129).  `Math.round` rounds half toward positive infinity,
i.e. the floor of `x + 1/2`. -/
def roundC (c : ℚ) : ℚ := ((Rat.floor (c * 100 + 1/2) : ℤ) : ℚ) / 100

/-- Lines 104-110: the sequential accumulation of `score` and `reasoning`
over the four range checks, in source order. -/
def predictScore (period radius distance temperature : ℚ) : ℚ × List String :=
  let s0 : ℚ × List String := (0, [])
  let s1 := if period ≥ 200 ∧ period ≤ 500 then
      (s0.1 + 0.3, s0.2 ++ ["Favorable orbital period"]) else s0
  let s2 := if radius ≥ 0.5 ∧ radius ≤ 2.0 then
      (s1.1 + 0.3, s1.2 ++ ["Earth-like size"]) else s1
  let s3 := if distance ≥ 0.8 ∧ distance ≤ 1.5 then
      (s2.1 + 0.25, s2.2 ++ ["In habitable zone"]) else s2
  let s4 := if temperature ≥ 273 ∧ temperature ≤ 373 then
      (s3.1 + 0.15, s3.2 ++ ["Temperature allows liquid water"]) else s3
  s4

/-- The Scoring Function (lines 103-113): confidence is the accumulated
score clamped by `Math.min(score, 1.0)`, the verdict is decided by
`predictVerdict`, and the reasoning texts are joined by a comma and a
space. -/
def predictCore (period radius distance temperature : ℚ) :
    ℚ × String × String :=
  let sc := predictScore period radius distance temperature
  let confidence := jsMin sc.1 1
  (confidence, predictVerdict confidence, String.intercalate ", " sc.2)

/-- `l.getD i 0`: the destructuring `[period, radius, distance, temperature]`
of a 4-element features array. -/
def featAt (l : List ℚ) (i : Nat) : ℚ := l.getD i 0

/-- The Scoring Function applied to a features array after destructuring. -/
def predictTriple (features : List ℚ) : ℚ × String × String :=
  predictCore (featAt features 0) (featAt features 1) (featAt features 2)
    (featAt features 3)

/-- Line 125: `if (history.length > 100) history = history.slice(-100)`,
keeping the most recent 100 entries of an end-appended history. -/
def keepLast100 (l : List HistoryEntry) : List HistoryEntry :=
  if l.length > 100 then l.drop (l.length - 100) else l

/-- Lines 309-311: `if (history.length > 100) history = history.slice(0, 100)`,
keeping the first 100 entries of a front-prepended history. -/
def keepFirst100 (l : List HistoryEntry) : List HistoryEntry :=
  if l.length > 100 then l.take 100 else l

/-- The history object pushed by /predict (lines 120-124). -/
def predictEntry (features : List ℚ) (confidence : ℚ)
    (reasoning now : String) : HistoryEntry :=
  HistoryEntry.predictE features (predictVerdict confidence)
    (roundC confidence) now reasoning

/-- The history entry that a valid /predict call on `features` records. -/
def recordedPredictEntry (features : List ℚ) (now : String) : HistoryEntry :=
  predictEntry features (predictTriple features).1 (predictTriple features).2.2
    now

/-- Lines 115-125: the stats mutation performed by /predict after scoring:
bump confirmed or rejected according to the verdict, bump
total_predictions, add the (unrounded) confidence to total_confidence,
push the history entry and truncate to the last 100. -/
def recordPredictResult (s : StatsRecord) (features : List ℚ)
    (confidence : ℚ) (reasoning now : String) : StatsRecord :=
  let prediction := predictVerdict confidence
  let s1 :=
    if prediction = "CONFIRMED" then
      { s with confirmed_predictions := s.confirmed_predictions + 1 }
    else
      { s with rejected_predictions := s.rejected_predictions + 1 }
  { s1 with
      total_predictions := s1.total_predictions + 1
      total_confidence := s1.total_confidence + confidence
      prediction_history :=
        keepLast100 (s1.prediction_history ++
          [predictEntry features confidence reasoning now]) }

/-- Response of POST /predict. -/
inductive PredictResp where
  | err (status : Nat) (msg : String)
  | ok (prediction : String) (confidence : ℚ) (reasoning : String)
  deriving DecidableEq

/-- POST /predict (lines 97-135).  `body` is the parsed `features` field:
`none` when absent or not an array; otherwise the numeric array.  A body
that is absent, not an array, or not of length 4 is rejected with 400 and
no state change; otherwise the Scoring Function runs and the result is
recorded. -/
def predictHandler (s : StatsRecord) (body : Option (List ℚ)) (now : String) :
    PredictResp × StatsRecord :=
  match body with
  | none => (PredictResp.err 400 "Expected array of 4 numerical features.", s)
  | some features =>
      if features.length = 4 then
        let t := predictTriple features
        (PredictResp.ok t.2.1 (roundC t.1) t.2.2,
         recordPredictResult s features t.1 t.2.2 now)
      else (PredictResp.err 400 "Expected array of 4 numerical features.", s)

/-- Response of POST /ai/predict. -/
inductive AiResp where
  | err (status : Nat) (msg : String)
  | ok (data : AiResponse)
  deriving DecidableEq

/-- The history object unshifted by /ai/predict (lines 301-306):
`confidence: data.confidence || 0`. -/
def aiEntry (now body : String) (data : AiResponse) : HistoryEntry :=
  HistoryEntry.aiE now body data (data.confidence.getD 0)

/-- POST /ai/predict (lines 265-325).  `upstream` is the external API
response: `none` models a network failure or non-ok status (the catch
branch: 500, no state change).  On success: total_predictions and
api_calls_today are always bumped; total_confidence and the
confirmed/rejected counter (strict `> 0.5` test) only when the response
carries a `confidence` field; the entry is unshifted and the history
truncated to the first 100. -/
def aiPredictHandler (s : StatsRecord) (body : String)
    (upstream : Option AiResponse) (now : String) : AiResp × StatsRecord :=
  match upstream with
  | none => (AiResp.err 500 "AI prediction failed", s)
  | some data =>
      let s1 := { s with
        total_predictions := s.total_predictions + 1
        api_calls_today := s.api_calls_today + 1 }
      let s2 :=
        match data.confidence with
        | some c =>
            if c > 0.5 then
              { s1 with
                  total_confidence := s1.total_confidence + c
                  confirmed_predictions := s1.confirmed_predictions + 1 }
            else
              { s1 with
                  total_confidence := s1.total_confidence + c
                  rejected_predictions := s1.rejected_predictions + 1 }
        | none => s1
      let s3 := { s2 with
        prediction_history := keepFirst100 (aiEntry now body data :: s2.prediction_history) }
      (AiResp.ok data, s3)

/-- Response of GET /tap/sync. -/
inductive TapResp where
  | err (status : Nat) (msg : String)
  | ok (data : String)
  deriving DecidableEq

/-- Full outcome of GET /tap/sync: the response, the resulting record, and
the (query, format) pair sent to the upstream TAP service — `none` when the
handler returned before issuing the fetch. -/
structure TapOutcome where
  resp : TapResp
  state : StatsRecord
  contacted : Option (String × String)
  deriving DecidableEq

/-- GET /tap/sync (lines 63-92).  `api_calls_today` is incremented first
(line 65); a missing or empty query is rejected with 400 before the
upstream fetch; `fetchResult` is the upstream body, `none` modelling a
network failure or non-ok status (the catch branch: 500). -/
def tapSyncHandler (s : StatsRecord) (query format : Option String)
    (fetchResult : Option String) : TapOutcome :=
  let s1 := { s with api_calls_today := s.api_calls_today + 1 }
  let q := query.getD ""
  let fmt := format.getD "json"
  if q = "" then
    { resp := TapResp.err 400 "Missing query parameter", state := s1,
      contacted := none }
  else
    match fetchResult with
    | none =>
        { resp := TapResp.err 500 "Failed to fetch TAP data", state := s1,
          contacted := some (q, fmt) }
    | some data =>
        { resp := TapResp.ok data, state := s1, contacted := some (q, fmt) }

/-- GET /api/stats (lines 140-144): increment `api_calls_today`, respond
with the live record.  Returns (response snapshot, new state). -/
def apiStatsHandler (s : StatsRecord) : StatsRecord × StatsRecord :=
  let s1 := { s with api_calls_today := s.api_calls_today + 1 }
  (s1, s1)

/-- One inbound request together with the environment inputs (request body,
upstream response, clock reading) that determine its handling. -/
inductive Request where
  | tap (query format : Option String) (fetchResult : Option String)
  | predict (body : Option (List ℚ)) (now : String)
  | aiPredict (body : String) (upstream : Option AiResponse) (now : String)
  | stats
  deriving DecidableEq

/-- The state transition of one request. -/
def step (s : StatsRecord) : Request → StatsRecord
  | Request.tap q f fr => (tapSyncHandler s q f fr).state
  | Request.predict b now => (predictHandler s b now).2
  | Request.aiPredict b u now => (aiPredictHandler s b u now).2
  | Request.stats => (apiStatsHandler s).2

/-- The state after a sequence of requests. -/
def run : StatsRecord → List Request → StatsRecord
  | s, [] => s
  | s, r :: rs => run (step s r) rs

/-- A request that performs a prediction recording: a /predict call that
passes validation, or an /ai/predict call whose upstream succeeded. -/
def isRecording : Request → Bool
  | Request.predict (some f) _ => decide (f.length = 4)
  | Request.aiPredict _ (some _) _ => true
  | _ => false

/-- A request whose upstream response, when it is an /ai/predict success,
carries a `confidence` field. -/
def confOk : Request → Bool
  | Request.aiPredict _ (some d) _ => d.confidence.isSome
  | _ => true

/-- A valid /predict request built from a (features, timestamp) pair. -/
def predictReq (p : List ℚ × String) : Request :=
  Request.predict (some p.1) p.2

/-- The entry such a request records. -/
def predictReqEntry (p : List ℚ × String) : HistoryEntry :=
  recordedPredictEntry p.1 p.2

/-- A successful /ai/predict request built from a
(body, upstream response, timestamp) triple. -/
def aiReq (t : String × AiResponse × String) : Request :=
  Request.aiPredict t.1 (some t.2.1) t.2.2

/-- The entry such a request records. -/
def aiReqEntry (t : String × AiResponse × String) : HistoryEntry :=
  aiEntry t.2.2 t.1 t.2.1

/-- Spec rendering of the Scoring Function confidence (§4.2): the sum of
the weights of the satisfied inclusive range checks, in table order,
clamped to at most 1. -/
def specConfidence (period radius distance temperature : ℚ) : ℚ :=
  jsMin ((if period ≥ 200 ∧ period ≤ 500 then (0.3 : ℚ) else 0)
       + (if radius ≥ 0.5 ∧ radius ≤ 2.0 then (0.3 : ℚ) else 0)
       + (if distance ≥ 0.8 ∧ distance ≤ 1.5 then (0.25 : ℚ) else 0)
       + (if temperature ≥ 273 ∧ temperature ≤ 373 then (0.15 : ℚ) else 0)) 1

/-- Spec rendering of the verdict (§4.2): CONFIRMED exactly when the
confidence is at least 0.5, ties going to CONFIRMED. -/
def specVerdict (c : ℚ) : String :=
  if c ≥ 0.5 then "CONFIRMED" else "FALSE POSITIVE"

/-- Spec rendering of the reasoning (§4.2): the satisfied condition texts
joined by a comma-and-space separator, in the fixed table order. -/
def specReasoning (period radius distance temperature : ℚ) : String :=
  String.intercalate ", "
    ((if period ≥ 200 ∧ period ≤ 500 then ["Favorable orbital period"] else [])
  ++ (if radius ≥ 0.5 ∧ radius ≤ 2.0 then ["Earth-like size"] else [])
  ++ (if distance ≥ 0.8 ∧ distance ≤ 1.5 then ["In habitable zone"] else [])
  ++ (if temperature ≥ 273 ∧ temperature ≤ 373 then
        ["Temperature allows liquid water"] else []))

/-- The 100 valid /predict inputs (features, timestamp) used in the mixed
counterexample sequence: equal features, distinct timestamps. -/
def psW : List (List ℚ × String) :=
  ([0, 0, 0, 0], "0") ::
    (List.range 99).map (fun i => (([0, 0, 0, 0] : List ℚ), toString (i + 1)))

/-- A mixed recording sequence: 100 valid /predict calls followed by one
successful /ai/predict call (the 101st recording). -/
def mixedReqs : List Request :=
  psW.map predictReq ++ [Request.aiPredict "b" (some ⟨some 0.9, "p"⟩) "t"]

/-! Helper lemmas about the embedded operations. -/

lemma keepLast100_of_le (l : List HistoryEntry) (h : l.length ≤ 100) :
    keepLast100 l = l := by
  unfold keepLast100
  rw [if_neg (by omega)]

lemma keepLast100_le (l : List HistoryEntry) :
    (keepLast100 l).length ≤ 100 := by
  unfold keepLast100
  split_ifs with h
  · simp
    omega
  · omega

lemma keepFirst100_of_le (l : List HistoryEntry) (h : l.length ≤ 100) :
    keepFirst100 l = l := by
  unfold keepFirst100
  rw [if_neg (by omega)]

lemma keepFirst100_le (l : List HistoryEntry) :
    (keepFirst100 l).length ≤ 100 := by
  unfold keepFirst100
  split_ifs with h
  · simp
  · omega

lemma keepLast100_overflow (l : List HistoryEntry) (e : HistoryEntry)
    (h : l.length = 100) : keepLast100 (l ++ [e]) = l.drop 1 ++ [e] := by
  unfold keepLast100
  rw [if_pos (by simp [h])]
  rw [show (l ++ [e]).length - 100 = 1 by simp [h]]
  rw [List.drop_append_of_le_length (by omega)]

lemma keepFirst100_overflow (l : List HistoryEntry) (e : HistoryEntry)
    (h : l.length = 100) : keepFirst100 (e :: l) = e :: l.dropLast := by
  unfold keepFirst100
  rw [if_pos (by simp [h])]
  rw [show (100 : Nat) = 99 + 1 from rfl, List.take_succ_cons]
  rw [List.dropLast_eq_take, h]

lemma run_append (s : StatsRecord) (l1 l2 : List Request) :
    run s (l1 ++ l2) = run (run s l1) l2 := by
  induction l1 generalizing s with
  | nil => rfl
  | cons r rs ih => simp [run, ih]

lemma tapSyncHandler_state (s : StatsRecord) (q f fr : Option String) :
    (tapSyncHandler s q f fr).state
      = { s with api_calls_today := s.api_calls_today + 1 } := by
  by_cases hq : (q.getD "") = "" <;> cases fr <;> simp [tapSyncHandler, hq]

lemma recordPredictResult_history (s : StatsRecord) (f : List ℚ) (c : ℚ)
    (reas now : String) :
    (recordPredictResult s f c reas now).prediction_history
      = keepLast100 (s.prediction_history ++ [predictEntry f c reas now]) := by
  simp only [recordPredictResult]
  split_ifs <;> rfl

lemma recordPredictResult_total (s : StatsRecord) (f : List ℚ) (c : ℚ)
    (reas now : String) :
    (recordPredictResult s f c reas now).total_predictions
      = s.total_predictions + 1 := by
  simp only [recordPredictResult]
  split_ifs <;> rfl

lemma recordPredictResult_confrej (s : StatsRecord) (f : List ℚ) (c : ℚ)
    (reas now : String) :
    (recordPredictResult s f c reas now).confirmed_predictions
      + (recordPredictResult s f c reas now).rejected_predictions
      = s.confirmed_predictions + s.rejected_predictions + 1 := by
  simp only [recordPredictResult]
  split_ifs <;> simp <;> omega

lemma recordPredictResult_api (s : StatsRecord) (f : List ℚ) (c : ℚ)
    (reas now : String) :
    (recordPredictResult s f c reas now).api_calls_today
      = s.api_calls_today := by
  simp only [recordPredictResult]
  split_ifs <;> rfl

lemma predict_valid_state (s : StatsRecord) (f : List ℚ) (now : String)
    (hf : f.length = 4) :
    (predictHandler s (some f) now).2
      = recordPredictResult s f (predictTriple f).1 (predictTriple f).2.2
          now := by
  simp [predictHandler, hf]

lemma predict_invalid_state (s : StatsRecord) (f : List ℚ) (now : String)
    (hf : ¬ f.length = 4) :
    (predictHandler s (some f) now).2 = s := by
  simp [predictHandler, hf]

lemma aiPredictHandler_some_history (s : StatsRecord) (b : String)
    (d : AiResponse) (now : String) :
    ((aiPredictHandler s b (some d) now).2).prediction_history
      = keepFirst100 (aiEntry now b d :: s.prediction_history) := by
  simp only [aiPredictHandler]
  cases hd : d.confidence with
  | none => simp [hd]
  | some c =>
      simp only [hd]
      split_ifs <;> rfl

lemma aiPredictHandler_some_total (s : StatsRecord) (b : String)
    (d : AiResponse) (now : String) :
    ((aiPredictHandler s b (some d) now).2).total_predictions
      = s.total_predictions + 1 := by
  simp only [aiPredictHandler]
  cases hd : d.confidence with
  | none => simp [hd]
  | some c =>
      simp only [hd]
      split_ifs <;> rfl

lemma aiPredictHandler_some_api (s : StatsRecord) (b : String)
    (d : AiResponse) (now : String) :
    ((aiPredictHandler s b (some d) now).2).api_calls_today
      = s.api_calls_today + 1 := by
  simp only [aiPredictHandler]
  cases hd : d.confidence with
  | none => simp [hd]
  | some c =>
      simp only [hd]
      split_ifs <;> rfl

lemma aiPredictHandler_confrej (s : StatsRecord) (b : String)
    (d : AiResponse) (now : String) (c : ℚ) (hd : d.confidence = some c) :
    ((aiPredictHandler s b (some d) now).2).confirmed_predictions
      + ((aiPredictHandler s b (some d) now).2).rejected_predictions
      = s.confirmed_predictions + s.rejected_predictions + 1 := by
  simp only [aiPredictHandler, hd]
  split_ifs <;> simp <;> omega

lemma aiPredictHandler_noconf (s : StatsRecord) (b : String)
    (d : AiResponse) (now : String) (hd : d.confidence = none) :
    ((aiPredictHandler s b (some d) now).2).confirmed_predictions
        = s.confirmed_predictions
  ∧ ((aiPredictHandler s b (some d) now).2).rejected_predictions
        = s.rejected_predictions := by
  simp [aiPredictHandler, hd]

lemma step_counts (s : StatsRecord) (r : Request) (h : confOk r = true) :
    (step s r).total_predictions
        = s.total_predictions + (if isRecording r then 1 else 0)
  ∧ (step s r).confirmed_predictions + (step s r).rejected_predictions
        = s.confirmed_predictions + s.rejected_predictions
            + (if isRecording r then 1 else 0) := by
  cases r with
  | tap q f fr => simp [step, tapSyncHandler_state, isRecording]
  | predict b now =>
      cases b with
      | none => simp [step, predictHandler, isRecording]
      | some f =>
          by_cases hf : f.length = 4
          · simp [step, predict_valid_state _ _ _ hf, isRecording, hf,
              recordPredictResult_total, recordPredictResult_confrej]
          · simp [step, predict_invalid_state _ _ _ hf, isRecording, hf]
  | aiPredict b u now =>
      cases u with
      | none => simp [step, aiPredictHandler, isRecording]
      | some d =>
          simp only [confOk, Option.isSome_iff_exists] at h
          obtain ⟨c, hc⟩ := h
          simp [step, isRecording, aiPredictHandler_some_total,
            aiPredictHandler_confrej s b d now c hc]
  | stats => simp [step, apiStatsHandler, isRecording]

lemma run_counts (reqs : List Request) :
    ∀ s : StatsRecord, (∀ r ∈ reqs, confOk r = true) →
      (run s reqs).total_predictions
          = s.total_predictions + reqs.countP isRecording
    ∧ (run s reqs).confirmed_predictions + (run s reqs).rejected_predictions
          = s.confirmed_predictions + s.rejected_predictions
              + reqs.countP isRecording := by
  induction reqs with
  | nil => intro s _; simp [run]
  | cons r rs ih =>
      intro s h
      have hr := step_counts s r (h r (by simp))
      have hrs := ih (step s r) (fun x hx => h x (by simp [hx]))
      simp only [run, List.countP_cons]
      constructor
      · rw [hrs.1, hr.1]; split_ifs <;> omega
      · rw [hrs.2, hr.2]; split_ifs <;> omega

lemma step_api_mono (s : StatsRecord) (r : Request) :
    s.api_calls_today ≤ (step s r).api_calls_today := by
  cases r with
  | tap q f fr => simp [step, tapSyncHandler_state]
  | predict b now =>
      cases b with
      | none => simp [step, predictHandler]
      | some f =>
          by_cases hf : f.length = 4
          · simp [step, predict_valid_state _ _ _ hf, recordPredictResult_api]
          · simp [step, predict_invalid_state _ _ _ hf]
  | aiPredict b u now =>
      cases u with
      | none => simp [step, aiPredictHandler]
      | some d => simp [step, aiPredictHandler_some_api]
  | stats => simp [step, apiStatsHandler]

lemma step_history_le (s : StatsRecord) (r : Request)
    (h : s.prediction_history.length ≤ 100) :
    (step s r).prediction_history.length ≤ 100 := by
  cases r with
  | tap q f fr => simpa [step, tapSyncHandler_state] using h
  | predict b now =>
      cases b with
      | none => simpa [step, predictHandler] using h
      | some f =>
          by_cases hf : f.length = 4
          · simp [step, predict_valid_state _ _ _ hf,
              recordPredictResult_history]
            exact keepLast100_le _
          · simpa [step, predict_invalid_state _ _ _ hf] using h
  | aiPredict b u now =>
      cases u with
      | none => simpa [step, aiPredictHandler] using h
      | some d =>
          simp [step, aiPredictHandler_some_history]
          exact keepFirst100_le _
  | stats => simpa [step, apiStatsHandler] using h

lemma run_history_le (reqs : List Request) :
    ∀ s : StatsRecord, s.prediction_history.length ≤ 100 →
      (run s reqs).prediction_history.length ≤ 100 := by
  induction reqs with
  | nil => intro s h; simpa [run] using h
  | cons r rs ih =>
      intro s h
      exact ih (step s r) (step_history_le s r h)

lemma run_predicts_no_overflow (ps : List (List ℚ × String)) :
    ∀ s : StatsRecord, (∀ p ∈ ps, p.1.length = 4) →
      s.prediction_history.length + ps.length ≤ 100 →
      (run s (ps.map predictReq)).prediction_history
        = s.prediction_history ++ ps.map predictReqEntry := by
  induction ps with
  | nil => intro s _ _; simp [run]
  | cons p ps ih =>
      intro s hv hlen
      have hp : p.1.length = 4 := hv p (by simp)
      have hlen1 : s.prediction_history.length + 1 ≤ 100 := by
        simp at hlen; omega
      have hstep : (step s (predictReq p)).prediction_history
          = s.prediction_history ++ [predictReqEntry p] := by
        rw [show step s (predictReq p) = (predictHandler s (some p.1) p.2).2
              from rfl,
          predict_valid_state _ _ _ hp, recordPredictResult_history,
          keepLast100_of_le _ (by simpa using hlen1)]
        rfl
      have hrest := ih (step s (predictReq p))
          (fun x hx => hv x (by simp [hx]))
          (by rw [hstep]; simp at hlen ⊢; omega)
      simp only [List.map_cons, run, hrest, hstep]
      simp

lemma run_ais_no_overflow (ts : List (String × AiResponse × String)) :
    ∀ s : StatsRecord, s.prediction_history.length + ts.length ≤ 100 →
      (run s (ts.map aiReq)).prediction_history
        = (ts.map aiReqEntry).reverse ++ s.prediction_history := by
  induction ts with
  | nil => intro s _; simp [run]
  | cons t ts ih =>
      intro s hlen
      have hstep : (step s (aiReq t)).prediction_history
          = aiReqEntry t :: s.prediction_history := by
        rw [show step s (aiReq t)
              = (aiPredictHandler s t.1 (some t.2.1) t.2.2).2 from rfl,
          aiPredictHandler_some_history,
          keepFirst100_of_le _ (by simp at hlen ⊢; omega)]
        rfl
      have hrest := ih (step s (aiReq t)) (by rw [hstep]; simp at hlen ⊢; omega)
      simp only [List.map_cons, run, hrest, hstep]
      simp

lemma run_predicts_101 (u v w : String) (ps : List (List ℚ × String))
    (hv : ∀ p ∈ ps, p.1.length = 4) (hlen : ps.length = 101) :
    (run (defaultStats u v w) (ps.map predictReq)).prediction_history
      = (ps.map predictReqEntry).drop 1 := by
  rcases List.eq_nil_or_concat ps with h0 | ⟨L, p, hL⟩
  · simp [h0] at hlen
  · subst hL
    simp only [List.concat_eq_append] at hv hlen ⊢
    have hLlen : L.length = 100 := by simp at hlen; omega
    have hp : p.1.length = 4 := hv p (by simp)
    have h1 : (run (defaultStats u v w) (L.map predictReq)).prediction_history
        = L.map predictReqEntry := by
      have := run_predicts_no_overflow L (defaultStats u v w)
        (fun x hx => hv x (by simp [hx]))
        (by simp [defaultStats, hLlen])
      simpa [defaultStats] using this
    rw [List.map_append, run_append]
    have hstep : (step (run (defaultStats u v w) (L.map predictReq))
          (predictReq p)).prediction_history
        = (L.map predictReqEntry).drop 1 ++ [predictReqEntry p] := by
      rw [show step (run (defaultStats u v w) (L.map predictReq)) (predictReq p)
            = (predictHandler (run (defaultStats u v w) (L.map predictReq))
                (some p.1) p.2).2 from rfl,
        predict_valid_state _ _ _ hp, recordPredictResult_history, h1,
        keepLast100_overflow _ _ (by simp [hLlen])]
      rfl
    show (run (run (defaultStats u v w) (L.map predictReq))
        ([predictReq p])).prediction_history = _
    rw [show ∀ s r, run s [r] = step s r from fun s r => rfl, hstep]
    rw [List.map_append, List.map_singleton,
      List.drop_append_of_le_length (by simp [hLlen])]

lemma run_ais_101 (u v w : String) (ts : List (String × AiResponse × String))
    (hlen : ts.length = 101) :
    (run (defaultStats u v w) (ts.map aiReq)).prediction_history
      = ((ts.map aiReqEntry).reverse).dropLast := by
  rcases List.eq_nil_or_concat ts with h0 | ⟨L, t, hL⟩
  · simp [h0] at hlen
  · subst hL
    simp only [List.concat_eq_append] at hlen ⊢
    have hLlen : L.length = 100 := by simp at hlen; omega
    have h1 : (run (defaultStats u v w) (L.map aiReq)).prediction_history
        = (L.map aiReqEntry).reverse := by
      have := run_ais_no_overflow L (defaultStats u v w)
        (by simp [defaultStats, hLlen])
      simpa [defaultStats] using this
    rw [List.map_append, run_append]
    have hstep : (step (run (defaultStats u v w) (L.map aiReq))
          (aiReq t)).prediction_history
        = aiReqEntry t :: ((L.map aiReqEntry).reverse).dropLast := by
      rw [show step (run (defaultStats u v w) (L.map aiReq)) (aiReq t)
            = (aiPredictHandler (run (defaultStats u v w) (L.map aiReq))
                t.1 (some t.2.1) t.2.2).2 from rfl,
        aiPredictHandler_some_history, h1,
        keepFirst100_overflow _ _ (by simp [hLlen])]
      rfl
    show (run (run (defaultStats u v w) (L.map aiReq))
        ([aiReq t])).prediction_history = _
    rw [show ∀ s r, run s [r] = step s r from fun s r => rfl, hstep]
    rw [List.map_append, List.map_singleton, List.reverse_append,
      List.reverse_singleton, List.singleton_append]
    rw [List.dropLast_cons_of_ne_nil (by
      intro hnil
      have hz : (List.map aiReqEntry L).reverse.length = 0 := by rw [hnil]; rfl
      simp [hLlen] at hz)]

/-! Claim theorems. -/

/-- C2: for every 4-element numeric feature vector, the Scoring Function
returns confidence equal to the sum of the weights of the satisfied
inclusive range checks clamped to at most 1.0, verdict CONFIRMED exactly
when confidence is at least 0.5 (ties at 0.5 going to CONFIRMED), and
reasoning equal to the satisfied condition texts joined in table order. -/
theorem scoring_matches_spec (period radius distance temperature : ℚ) :
    predictCore period radius distance temperature
      = (specConfidence period radius distance temperature,
         specVerdict (specConfidence period radius distance temperature),
         specReasoning period radius distance temperature) := by
  by_cases h1 : period ≥ 200 ∧ period ≤ 500 <;>
  by_cases h2 : radius ≥ (0.5 : ℚ) ∧ radius ≤ 2.0 <;>
  by_cases h3 : distance ≥ (0.8 : ℚ) ∧ distance ≤ 1.5 <;>
  by_cases h4 : temperature ≥ (273 : ℚ) ∧ temperature ≤ 373 <;>
  simp only [predictCore, predictScore, specConfidence, specVerdict,
    specReasoning, predictVerdict, jsMin, h1, h2, h3, h4, if_true, if_false,
    ite_true, ite_false, List.nil_append, List.append_nil] <;>
  norm_num

/-- C5: saving a StatsRecord and reloading it on the same calendar day
(so that no rollover reset triggers) reproduces the record exactly,
whatever defaults the merge runs over. -/
theorem save_load_roundtrip (d s : StatsRecord) (today : String)
    (h : s.last_reset = today) :
    loadStats d today (some (saveStats s)) = s := by
  subst h
  simp [loadStats, saveStats, mergeStats]

/-- Witness for C5 at a concrete record and day. -/
theorem save_load_roundtrip_witness :
    loadStats (defaultStats "a" "b" "c") "Tue Oct 07 2025"
        (some (saveStats
          { defaultStats "2025-10-07" "T0" "Tue Oct 07 2025" with
              total_predictions := 3
              confirmed_predictions := 2
              rejected_predictions := 1
              total_confidence := 1.5
              api_calls_today := 5 }))
      = { defaultStats "2025-10-07" "T0" "Tue Oct 07 2025" with
            total_predictions := 3
            confirmed_predictions := 2
            rejected_predictions := 1
            total_confidence := 1.5
            api_calls_today := 5 } :=
  save_load_roundtrip _ _ _ rfl

/-- C6: loading a persisted record whose last_reset differs from today
yields api_calls_today 0 and last_reset today; when they agree, both
fields come from the persisted record unchanged. -/
theorem load_rollover (d : StatsRecord) (saved : SavedStats)
    (today : String) :
    (saved.last_reset ≠ some today →
        (loadStats d today (some saved)).api_calls_today = 0
      ∧ (loadStats d today (some saved)).last_reset = today)
  ∧ (∀ a : Nat, saved.last_reset = some today →
        saved.api_calls_today = some a →
        (loadStats d today (some saved)).api_calls_today = a
      ∧ (loadStats d today (some saved)).last_reset = today) := by
  constructor
  · intro h
    simp [loadStats, h, mergeStats]
  · intro a h ha
    simp [loadStats, h, ha, mergeStats]

/-- Witness for C6: a stale record is reset on load, a same-day record is
taken over unchanged. -/
theorem load_rollover_witness :
    ((loadStats (defaultStats "a" "b" "c") "Tue Oct 07 2025"
          (some (saveStats
            (defaultStats "x" "y" "Mon Oct 06 2025")))).api_calls_today = 0
      ∧ (loadStats (defaultStats "a" "b" "c") "Tue Oct 07 2025"
          (some (saveStats
            (defaultStats "x" "y" "Mon Oct 06 2025")))).last_reset
            = "Tue Oct 07 2025")
  ∧ ((loadStats (defaultStats "a" "b" "c") "Mon Oct 06 2025"
          (some (saveStats
            { defaultStats "x" "y" "Mon Oct 06 2025" with
                api_calls_today := 7 }))).api_calls_today = 7
      ∧ (loadStats (defaultStats "a" "b" "c") "Mon Oct 06 2025"
          (some (saveStats
            { defaultStats "x" "y" "Mon Oct 06 2025" with
                api_calls_today := 7 }))).last_reset = "Mon Oct 06 2025") :=
  ⟨(load_rollover _ _ _).1 (by decide),
   (load_rollover _ _ _).2 7 rfl rfl⟩

/-- C7: GET /api/stats increments api_calls_today by exactly one, leaves
every other field unchanged, and responds with the record as it is after
the increment. -/
theorem api_stats_frame (s : StatsRecord) :
    (apiStatsHandler s).1 = (apiStatsHandler s).2
  ∧ (apiStatsHandler s).2.api_calls_today = s.api_calls_today + 1
  ∧ (apiStatsHandler s).2.model_type = s.model_type
  ∧ (apiStatsHandler s).2.training_samples = s.training_samples
  ∧ (apiStatsHandler s).2.features_count = s.features_count
  ∧ (apiStatsHandler s).2.last_updated = s.last_updated
  ∧ (apiStatsHandler s).2.total_predictions = s.total_predictions
  ∧ (apiStatsHandler s).2.confirmed_predictions = s.confirmed_predictions
  ∧ (apiStatsHandler s).2.rejected_predictions = s.rejected_predictions
  ∧ (apiStatsHandler s).2.total_confidence = s.total_confidence
  ∧ (apiStatsHandler s).2.prediction_history = s.prediction_history
  ∧ (apiStatsHandler s).2.start_time = s.start_time
  ∧ (apiStatsHandler s).2.last_reset = s.last_reset := by
  simp [apiStatsHandler]

/-- C8: no request-handling step resets api_calls_today: across any
sequence of requests within one process lifetime the counter is
non-decreasing (only loadStats, at process start, can reset it). -/
theorem api_calls_monotone (s : StatsRecord) (reqs : List Request) :
    s.api_calls_today ≤ (run s reqs).api_calls_today := by
  induction reqs generalizing s with
  | nil => simp [run]
  | cons r rs ih => exact le_trans (step_api_mono s r) (ih (step s r))

/-- C9: the scoring path of POST /predict is deterministic and stateless:
the response triple does not depend on the StatsRecord or on the clock,
and a repeated invocation with the same body (after the first one has
mutated the record) produces the identical response. -/
theorem scoring_deterministic_stateless :
    (∀ (s₁ s₂ : StatsRecord) (body : Option (List ℚ)) (now₁ now₂ : String),
        (predictHandler s₁ body now₁).1 = (predictHandler s₂ body now₂).1)
  ∧ (∀ (s : StatsRecord) (body : Option (List ℚ)) (now₁ now₂ : String),
        (predictHandler ((predictHandler s body now₁).2) body now₂).1
          = (predictHandler s body now₁).1) := by
  have h : ∀ (s₁ s₂ : StatsRecord) (body : Option (List ℚ))
      (now₁ now₂ : String),
      (predictHandler s₁ body now₁).1 = (predictHandler s₂ body now₂).1 := by
    intro s₁ s₂ body n₁ n₂
    cases body with
    | none => rfl
    | some f => by_cases hf : f.length = 4 <;> simp [predictHandler, hf]
  exact ⟨h, fun s body n₁ n₂ => h _ _ _ _ _⟩

/-- C10: the tie point differs between the two prediction paths: an
/ai/predict upstream confidence of exactly 0.5 falls into the rejected
branch (the confirmed branch needs strictly more than 0.5), while the
/predict verdict at confidence exactly 0.5 is CONFIRMED and its recording
increments confirmed_predictions. -/
theorem threshold_asymmetry :
    (∀ (s : StatsRecord) (body now pay : String),
        ((aiPredictHandler s body
            (some ⟨some (0.5 : ℚ), pay⟩) now).2).rejected_predictions
            = s.rejected_predictions + 1
      ∧ ((aiPredictHandler s body
            (some ⟨some (0.5 : ℚ), pay⟩) now).2).confirmed_predictions
            = s.confirmed_predictions)
  ∧ predictVerdict (0.5 : ℚ) = "CONFIRMED"
  ∧ (∀ (s : StatsRecord) (f : List ℚ) (reas now : String),
        (recordPredictResult s f (0.5 : ℚ) reas now).confirmed_predictions
            = s.confirmed_predictions + 1
      ∧ (recordPredictResult s f (0.5 : ℚ) reas now).rejected_predictions
            = s.rejected_predictions) := by
  have hv : predictVerdict (0.5 : ℚ) = "CONFIRMED" := by
    norm_num [predictVerdict]
  refine ⟨?_, hv, ?_⟩
  · intro s body now pay
    have hlt : ¬ ((0.5 : ℚ) > 0.5) := by norm_num
    constructor <;> simp [aiPredictHandler, hlt]
  · intro s f reas now
    constructor <;> simp [recordPredictResult, hv]

/-- C1 counterexample: one successful /ai/predict call whose upstream
response has no confidence field increments total_predictions but neither
confirmed_predictions nor rejected_predictions, so the claimed equality
fails right after a prediction-recording operation. -/
theorem ai_missing_confidence_breaks_equality :
    (step (defaultStats "a" "b" "c")
        (Request.aiPredict "body" (some ⟨none, "p"⟩) "t")).total_predictions
      ≠ (step (defaultStats "a" "b" "c")
          (Request.aiPredict "body" (some ⟨none, "p"⟩) "t")).confirmed_predictions
        + (step (defaultStats "a" "b" "c")
            (Request.aiPredict "body" (some ⟨none, "p"⟩) "t")).rejected_predictions := by
  decide

/-- C1 (amended): the equality total = confirmed + rejected is preserved
by every request whose /ai/predict upstream response (if any) carries a
confidence field; under that proviso, after N recordings from the default
record, total_predictions = N = confirmed + rejected.  (An /ai/predict
response lacking confidence increments only total_predictions.) -/
theorem prediction_counts_balance_amended :
    (∀ (s : StatsRecord) (r : Request), confOk r = true →
        s.total_predictions
          = s.confirmed_predictions + s.rejected_predictions →
        (step s r).total_predictions
          = (step s r).confirmed_predictions
            + (step s r).rejected_predictions)
  ∧ (∀ (u v w : String) (reqs : List Request),
        (∀ r ∈ reqs, confOk r = true) →
        (run (defaultStats u v w) reqs).total_predictions
            = reqs.countP isRecording
      ∧ (run (defaultStats u v w) reqs).confirmed_predictions
          + (run (defaultStats u v w) reqs).rejected_predictions
            = reqs.countP isRecording) := by
  constructor
  · intro s r hc hinv
    have h := step_counts s r hc
    rw [h.1, h.2, hinv]
  · intro u v w reqs h
    have h2 := run_counts reqs (defaultStats u v w) h
    simpa [defaultStats] using h2

/-- Witness for the amended C1 at a concrete state and request sequence. -/
theorem prediction_counts_balance_amended_witness :
    ((step (defaultStats "a" "b" "c") Request.stats).total_predictions
        = (step (defaultStats "a" "b" "c") Request.stats).confirmed_predictions
          + (step (defaultStats "a" "b" "c") Request.stats).rejected_predictions)
  ∧ ((run (defaultStats "a" "b" "c")
          [predictReq ([300, 1, 1, 300], "t1"),
           Request.aiPredict "b" (some ⟨some 0.7, "p"⟩) "t2",
           Request.stats]).total_predictions
        = [predictReq ([300, 1, 1, 300], "t1"),
           Request.aiPredict "b" (some ⟨some 0.7, "p"⟩) "t2",
           Request.stats].countP isRecording
      ∧ (run (defaultStats "a" "b" "c")
          [predictReq ([300, 1, 1, 300], "t1"),
           Request.aiPredict "b" (some ⟨some 0.7, "p"⟩) "t2",
           Request.stats]).confirmed_predictions
        + (run (defaultStats "a" "b" "c")
          [predictReq ([300, 1, 1, 300], "t1"),
           Request.aiPredict "b" (some ⟨some 0.7, "p"⟩) "t2",
           Request.stats]).rejected_predictions
        = [predictReq ([300, 1, 1, 300], "t1"),
           Request.aiPredict "b" (some ⟨some 0.7, "p"⟩) "t2",
           Request.stats].countP isRecording) :=
  ⟨prediction_counts_balance_amended.1 _ _ (by decide) (by decide),
   prediction_counts_balance_amended.2 "a" "b" "c" _ (by decide)⟩

/-- C3 counterexample: a missing query on /tap/sync does return the 400
error without contacting the upstream, but it mutates the StatsRecord
(api_calls_today is incremented on line 65 before the validation check),
contradicting the no-mutation part of the claim. -/
theorem tap_missing_query_mutates_state :
    (tapSyncHandler (defaultStats "a" "b" "c") none none none).resp
        = TapResp.err 400 "Missing query parameter"
  ∧ (tapSyncHandler (defaultStats "a" "b" "c") none none none).state
        ≠ defaultStats "a" "b" "c" := by
  decide

/-- C3 (amended): client input errors yield a 4xx with a descriptive
message; on the missing-query (or empty-query) /tap/sync path the upstream
is never contacted and the only mutation is the api_calls_today increment
performed before validation; /predict validation failures cause no
mutation at all. -/
theorem client_error_handling_amended :
    (∀ (s : StatsRecord) (f fr : Option String),
        (tapSyncHandler s none f fr).resp
            = TapResp.err 400 "Missing query parameter"
      ∧ (tapSyncHandler s none f fr).contacted = none
      ∧ (tapSyncHandler s none f fr).state
            = { s with api_calls_today := s.api_calls_today + 1 })
  ∧ (∀ (s : StatsRecord) (f fr : Option String),
        (tapSyncHandler s (some "") f fr).resp
            = TapResp.err 400 "Missing query parameter"
      ∧ (tapSyncHandler s (some "") f fr).contacted = none
      ∧ (tapSyncHandler s (some "") f fr).state
            = { s with api_calls_today := s.api_calls_today + 1 })
  ∧ (∀ (s : StatsRecord) (now : String),
        (predictHandler s none now).1
            = PredictResp.err 400 "Expected array of 4 numerical features."
      ∧ (predictHandler s none now).2 = s)
  ∧ (∀ (s : StatsRecord) (f : List ℚ) (now : String), f.length ≠ 4 →
        (predictHandler s (some f) now).1
            = PredictResp.err 400 "Expected array of 4 numerical features."
      ∧ (predictHandler s (some f) now).2 = s) := by
  refine ⟨?_, ?_, ?_, ?_⟩
  · intro s f fr
    refine ⟨by simp [tapSyncHandler], by simp [tapSyncHandler],
      tapSyncHandler_state s none f fr⟩
  · intro s f fr
    refine ⟨by simp [tapSyncHandler], by simp [tapSyncHandler],
      tapSyncHandler_state s (some "") f fr⟩
  · intro s now
    exact ⟨rfl, rfl⟩
  · intro s f now hf
    exact ⟨by simp [predictHandler, hf], predict_invalid_state s f now hf⟩

/-- Witness for the amended C3 at a concrete state and wrong-length body. -/
theorem client_error_handling_amended_witness :
    (predictHandler (defaultStats "a" "b" "c") (some [1, 2, 3]) "t").1
        = PredictResp.err 400 "Expected array of 4 numerical features."
  ∧ (predictHandler (defaultStats "a" "b" "c") (some [1, 2, 3]) "t").2
        = defaultStats "a" "b" "c" :=
  client_error_handling_amended.2.2.2 (defaultStats "a" "b" "c") [1, 2, 3]
    "t" (by decide)

/-- C4 (amended): the history never exceeds 100 entries under any request
sequence (starting from any record within the bound); after 101 valid
/predict recordings from the default record the history is the recorded
entries minus the first (the oldest is evicted, the newest is last); after
101 successful /ai/predict recordings it is the reversed recorded entries
minus their last (the oldest is evicted, the newest is first).  With the
two paths mixed, the entry evicted on overflow need not be the oldest. -/
theorem history_bound_amended :
    (∀ (s : StatsRecord) (reqs : List Request),
        s.prediction_history.length ≤ 100 →
        (run s reqs).prediction_history.length ≤ 100)
  ∧ (∀ (u v w : String) (ps : List (List ℚ × String)),
        (∀ p ∈ ps, p.1.length = 4) → ps.length = 101 →
        (run (defaultStats u v w) (ps.map predictReq)).prediction_history
          = (ps.map predictReqEntry).drop 1)
  ∧ (∀ (u v w : String) (ts : List (String × AiResponse × String)),
        ts.length = 101 →
        (run (defaultStats u v w) (ts.map aiReq)).prediction_history
          = ((ts.map aiReqEntry).reverse).dropLast) :=
  ⟨fun s reqs h => run_history_le reqs s h,
   fun u v w ps hv hl => run_predicts_101 u v w ps hv hl,
   fun u v w ts hl => run_ais_101 u v w ts hl⟩

/-- Witness for the amended C4 at concrete 101-call sequences. -/
theorem history_bound_amended_witness :
    ((run (defaultStats "a" "b" "c") [Request.stats]).prediction_history.length
        ≤ 100)
  ∧ ((run (defaultStats "a" "b" "c")
        ((List.replicate 101 (([0, 0, 0, 0] : List ℚ), "x")).map
          predictReq)).prediction_history
      = ((List.replicate 101 (([0, 0, 0, 0] : List ℚ), "x")).map
          predictReqEntry).drop 1)
  ∧ ((run (defaultStats "a" "b" "c")
        ((List.replicate 101
            ("b", (⟨some 0.9, "p"⟩ : AiResponse), "t")).map
          aiReq)).prediction_history
      = (((List.replicate 101
            ("b", (⟨some 0.9, "p"⟩ : AiResponse), "t")).map
          aiReqEntry).reverse).dropLast) :=
  ⟨history_bound_amended.1 (defaultStats "a" "b" "c") [Request.stats]
      (by decide),
   history_bound_amended.2.1 "a" "b" "c" _
      (fun p hp => by simp [List.eq_of_mem_replicate hp]) (by simp),
   history_bound_amended.2.2 "a" "b" "c" _ (by simp)⟩

/-- C4 counterexample: 100 valid /predict recordings followed by one
successful /ai/predict recording (the 101st).  The history is truncated to
100 entries, yet the oldest entry (the first /predict entry, timestamp
"0") is still present: /ai/predict truncates from the opposite end of the
list than /predict, so the mixed sequence evicts the newest /predict entry
instead of the oldest. -/
theorem mixed_history_keeps_oldest :
    (run (defaultStats "a" "b" "c") mixedReqs).prediction_history.length
        = 100
  ∧ predictReqEntry ([0, 0, 0, 0], "0")
      ∈ (run (defaultStats "a" "b" "c") mixedReqs).prediction_history := by
  have hv : ∀ p ∈ psW, p.1.length = 4 := by
    intro p hp
    simp only [psW, List.mem_cons, List.mem_map] at hp
    rcases hp with h | ⟨i, _, h⟩
    · simp [h]
    · simp [← h]
  have hlenW : psW.length = 100 := by simp [psW]
  have h1 : (run (defaultStats "a" "b" "c")
        (psW.map predictReq)).prediction_history
      = psW.map predictReqEntry := by
    have h0 := run_predicts_no_overflow psW (defaultStats "a" "b" "c") hv
      (by simp [defaultStats, hlenW])
    simpa [defaultStats] using h0
  rw [show mixedReqs = psW.map predictReq
      ++ [Request.aiPredict "b" (some ⟨some 0.9, "p"⟩) "t"] from rfl,
    run_append,
    show ∀ s r, run s [r] = step s r from fun s r => rfl,
    show ∀ s, step s (Request.aiPredict "b" (some ⟨some 0.9, "p"⟩) "t")
      = (aiPredictHandler s "b" (some ⟨some 0.9, "p"⟩) "t").2
      from fun s => rfl,
    aiPredictHandler_some_history, h1,
    keepFirst100_overflow _ _ (by simp [hlenW])]
  constructor
  · simp [hlenW]
  · rw [show psW.map predictReqEntry
        = predictReqEntry ([0, 0, 0, 0], "0")
          :: ((List.range 99).map
              (fun i => (([0, 0, 0, 0] : List ℚ), toString (i + 1)))).map
            predictReqEntry from rfl,
      List.dropLast_cons_of_ne_nil (by
        intro hnil
        have hz : (((List.range 99).map
            (fun i => (([0, 0, 0, 0] : List ℚ), toString (i + 1)))).map
              predictReqEntry).length = 0 := by rw [hnil]; rfl
        simp at hz)]
    exact List.mem_cons_of_mem _ (List.mem_cons_self _ _)
